import Mathlib

/-
Verification of plugins/modules/mongodb_oplog.py (community.mongodb).

The module resizes the MongoDB oplog and optionally compacts it on
secondaries.  Its core is the function main(): connect, resolve
credentials, then read the current oplog size, compare it to the desired
size, and act (no-op / check-mode simulation / resize followed by a
guarded compact).

Shallow embedding conventions:
  - Remote-state reads and the outcome of each remote command are
    packaged in a Client record: maxSize is the byte count returned by
    collStats on local.oplog.rs, memberState is the string returned by
    member_state (for example "PRIMARY" or "SECONDARY"), and each
    fallible remote call carries an Option String that is none on
    success and some cause on the exception path.
  - Python true division is exact division in Rat, so
    int(maxSize)/1024/1024 is (maxSize : Rat)/1024/1024.
  - module.fail_json terminates the run: the run result is
    Except String ModuleResult, error msg mirroring fail_json(msg=...).
  - Each run also returns the client state after the run (a successful
    replSetResizeOplog stores the new size) and the ordered list of
    remote oplog operations that were invoked, which is the evidence
    used to reason about which remote calls happened.
-/

namespace MongodbOplog

/-- The remote oplog operations main() can invoke, in the order the code
issues them: collStats read (get_olplog_size), member_state read,
replSetResizeOplog (set_oplog_size), and compact (compact_oplog). -/
inductive Op where
  | readSize
  | readRole
  | resize
  | compact
  deriving DecidableEq

/-- The remote member as seen through the connected client, together with
the outcome of each fallible remote call (none = the call succeeds,
some cause = the call raises with that cause). -/
structure Client where
  maxSize : Int
  memberState : String
  collStatsErr : Option String
  memberStateErr : Option String
  resizeErr : Option String
  compactErr : Option String
  deriving DecidableEq

/-- The module parameters that drive the reconciliation (lines 159-160 of
the source) plus Ansible check mode (module.check_mode). -/
structure Params where
  oplog_size_mb : Int
  compact : Bool
  check_mode : Bool
  deriving DecidableEq

/-- Full parameter set of main(), adding the login credentials. -/
structure MainParams where
  login_user : Option String
  login_password : Option String
  oplog_size_mb : Int
  compact : Bool
  check_mode : Bool
  deriving DecidableEq

def MainParams.toParams (p : MainParams) : Params :=
  { oplog_size_mb := p.oplog_size_mb, compact := p.compact, check_mode := p.check_mode }

/-- External collaborators of main() outside the reconciliation proper:
the .mongocnf credential file (load_mongocnf returns credentials or
False), the MongoClient connection, authenticate, server_info, and
check_compatibility (a module_utils helper that either passes or fails
the module with its own message). -/
structure Env where
  mongocnf : Option (String × String)
  connectErr : Option String
  authErr : Option String
  versionErr : Option String
  compatErr : Option String
  deriving DecidableEq

/-- The fields of the result dict main() passes to exit_json.  The
initial dict only has changed=False; compacted and msg are added along
the way, so they are optional here. -/
structure ModuleResult where
  changed : Bool
  compacted : Option Bool
  msg : Option String
  deriving DecidableEq

/-- Source line 122-123: int(collStats("oplog.rs")["maxSize"]) / 1024 / 1024,
Python true division, so the value may be fractional. -/
def get_olplog_size (c : Client) : Rat :=
  (c.maxSize : Rat) / 1024 / 1024

/-- Source line 126-127: replSetResizeOplog with the size in MB.  On the
remote side a successful resize stores the new maximum size, so the
client afterwards reports maxSize = oplog_size_mb * 1024 * 1024 bytes. -/
def set_oplog_size (c : Client) (oplog_size_mb : Int) : Client :=
  { c with maxSize := oplog_size_mb * 1024 * 1024 }

/-- Source line 130-131: compact on local.oplog.rs reclaims disk space and
does not change the configured maximum size. -/
def compact_oplog (c : Client) : Client :=
  c

/-- Python round(q, 0): round half to even. -/
def pyRound (q : Rat) : Int :=
  if Int.fract q < 1/2 then ⌊q⌋
  else if 1/2 < Int.fract q then ⌊q⌋ + 1
  else if ⌊q⌋ % 2 = 0 then ⌊q⌋ else ⌊q⌋ + 1

/-- The resize message of lines 219-220 and 229-230:
"oplog has been resized from {round(current, 0)} mb to {round(new, 0)} mb".
round(current, 0) is a Python float, rendered with a trailing ".0";
round(new, 0) of an int is that int. -/
def resizedMsgStr (old new : Int) : String :=
  "oplog has been resized from " ++ toString old ++ ".0 mb to " ++ toString new ++ " mb"

/-- Lines 205-242 of main(): the reconciliation executed once the client
is authenticated.  Returns the run outcome, the client state after the
run, and the ordered list of remote oplog operations invoked. -/
def reconcile (c : Client) (p : Params) : Except String ModuleResult × Client × List Op :=
  match c.collStatsErr with
  | some e => (Except.error ("Unable to get current oplog size: " ++ e), c, [Op.readSize])
  | none =>
    let current_oplog_size := get_olplog_size c
    if (p.oplog_size_mb : Rat) = current_oplog_size then
      (Except.ok { changed := false, compacted := some false,
                   msg := some ("oplog_size_mb is already " ++ toString p.oplog_size_mb ++ " mb") },
       c, [Op.readSize])
    else
      match c.memberStateErr with
      | some e => (Except.error ("Unable to get member state: " ++ e), c, [Op.readSize, Op.readRole])
      | none =>
        let state := c.memberState
        if p.check_mode then
          (Except.ok { changed := true,
                       compacted := some (state == "SECONDARY" && p.compact),
                       msg := some (resizedMsgStr (pyRound current_oplog_size) p.oplog_size_mb) },
           c, [Op.readSize, Op.readRole])
        else
          match c.resizeErr with
          | some e => (Except.error ("Unable to set oplog size: " ++ e), c,
                       [Op.readSize, Op.readRole, Op.resize])
          | none =>
            let c' := set_oplog_size c p.oplog_size_mb
            if state == "SECONDARY" && p.compact
                && decide ((p.oplog_size_mb : Rat) < current_oplog_size) then
              match c'.compactErr with
              | some e => (Except.error ("Error compacting member oplog: " ++ e), c',
                           [Op.readSize, Op.readRole, Op.resize, Op.compact])
              | none => (Except.ok { changed := true, compacted := some true,
                                     msg := some (resizedMsgStr (pyRound current_oplog_size)
                                                  p.oplog_size_mb) },
                         compact_oplog c', [Op.readSize, Op.readRole, Op.resize, Op.compact])
            else
              (Except.ok { changed := true, compacted := some false,
                           msg := some (resizedMsgStr (pyRound current_oplog_size)
                                        p.oplog_size_mb) },
               c', [Op.readSize, Op.readRole, Op.resize])

/-- The authenticated tail of main() (lines 189-242): authenticate, fetch
the server version, run the compatibility check, then reconcile. -/
def runAuthed (p : MainParams) (env : Env) (c : Client) :
    Except String ModuleResult × Client × List Op :=
  match env.authErr with
  | some e => (Except.error ("Unable to authenticate with MongoDB: " ++ e), c, [])
  | none =>
    match env.versionErr with
    | some e => (Except.error ("Unable to get MongoDB server version: " ++ e), c, [])
    | none =>
      match env.compatErr with
      | some e => (Except.error e, c, [])
      | none => reconcile c p.toParams

/-- main() of the module (lines 134-242): connect, resolve credentials
(explicit parameters, else the .mongocnf file), and run the
authenticated tail only when both a user and a password are present;
otherwise exit_json is reached with the initial result dict, which has
changed=False and neither a compacted nor a msg entry. -/
def main (p : MainParams) (env : Env) (c : Client) :
    Except String ModuleResult × Client × List Op :=
  match env.connectErr with
  | some e => (Except.error ("Unable to connect to MongoDB: " ++ e), c, [])
  | none =>
    match p.login_user, p.login_password with
    | none, none =>
      match env.mongocnf with
      | some _ => runAuthed p env c
      | none => (Except.ok { changed := false, compacted := none, msg := none }, c, [])
    | some _, some _ => runAuthed p env c
    | _, _ =>
      (Except.error
        "When supplying login arguments, both \x27login_user\x27 and \x27login_password\x27 must be provided",
       c, [])

/-! Concrete sample states used to instantiate the theorems below. -/

/-- A healthy SECONDARY whose oplog currently holds 16000 MB
(16000 * 1024 * 1024 = 16777216000 bytes). -/
def sampleClient : Client :=
  { maxSize := 16777216000, memberState := "SECONDARY",
    collStatsErr := none, memberStateErr := none, resizeErr := none, compactErr := none }

/-- Shrink to 8000 MB with compaction, real run. -/
def sampleParams : Params :=
  { oplog_size_mb := 8000, compact := true, check_mode := false }

/-- The result of the sampleClient/sampleParams run. -/
def sampleRes : ModuleResult :=
  { changed := true, compacted := some true, msg := some (resizedMsgStr (pyRound 16000) 8000) }

/-- Shrink to 8000 MB with compaction, check mode. -/
def checkParams : Params :=
  { oplog_size_mb := 8000, compact := true, check_mode := true }

/-- A member whose oplog is already at 8000 MB (8388608000 bytes). -/
def clientEq : Client :=
  { maxSize := 8388608000, memberState := "PRIMARY",
    collStatsErr := none, memberStateErr := none, resizeErr := none, compactErr := none }

/-- Desired size 8000 MB, no compaction, real run. -/
def paramsEq : Params :=
  { oplog_size_mb := 8000, compact := false, check_mode := false }

/-- Like sampleClient but the resize command is rejected remotely. -/
def clientResizeFail : Client :=
  { maxSize := 16777216000, memberState := "SECONDARY",
    collStatsErr := none, memberStateErr := none,
    resizeErr := some "not authorized", compactErr := none }

/-- A SECONDARY at 8000 MB, used for the growing-resize scenarios. -/
def clientGrow : Client :=
  { maxSize := 8388608000, memberState := "SECONDARY",
    collStatsErr := none, memberStateErr := none, resizeErr := none, compactErr := none }

/-- Grow to 16000 MB with compaction requested, real run. -/
def growParams : Params :=
  { oplog_size_mb := 16000, compact := true, check_mode := false }

/-- A client whose oplog byte count (1 byte) is not a whole number of MB. -/
def clientFrac : Client :=
  { maxSize := 1, memberState := "SECONDARY",
    collStatsErr := none, memberStateErr := none, resizeErr := none, compactErr := none }

/-- A member at 100 MB whose resize command is rejected remotely. -/
def clientBadSize : Client :=
  { maxSize := 104857600, memberState := "PRIMARY",
    collStatsErr := none, memberStateErr := none,
    resizeErr := some "BadValue", compactErr := none }

/-- A malformed desired size: 0 MB is not a positive integer. -/
def paramsNonPositive : Params :=
  { oplog_size_mb := 0, compact := false, check_mode := false }

/-- A no-auth deployment: the caller supplies no credentials (as the
module documentation instructs when auth is not enabled) and no
.mongocnf file exists; every external collaborator would succeed. -/
def mainParamsNoCreds : MainParams :=
  { login_user := none, login_password := none,
    oplog_size_mb := 16000, compact := false, check_mode := false }

/-- Environment for the no-auth run: connection succeeds, no .mongocnf. -/
def envNoCreds : Env :=
  { mongocnf := none, connectErr := none, authErr := none,
    versionErr := none, compatErr := none }

end MongodbOplog

namespace MongodbOplog

/-! Helper lemmas about the size arithmetic and rounding. -/

/-- The MB value read back equals an integer n exactly iff the stored
byte count is exactly n * 1024 * 1024. -/
theorem oplog_size_eq_iff (c : Client) (n : Int) :
    ((n : Rat) = get_olplog_size c) ↔ c.maxSize = n * 1024 * 1024 := by
  unfold get_olplog_size
  rw [div_div, eq_div_iff (by norm_num : (1024 * 1024 : Rat) ≠ 0)]
  constructor
  · intro h
    have h' : ((n * 1024 * 1024 : Int) : Rat) = (c.maxSize : Rat) := by
      push_cast
      linarith
    exact_mod_cast h'.symm
  · intro h
    rw [h]
    push_cast
    ring

/-- After a successful resize the member reports exactly the desired
number of megabytes. -/
theorem get_olplog_size_set (c : Client) (n : Int) :
    get_olplog_size (set_oplog_size c n) = (n : Rat) := by
  simp only [get_olplog_size, set_oplog_size]
  push_cast
  field_simp

/-- Round half to even never moves a value by more than half a unit. -/
theorem abs_pyRound_sub_le (q : Rat) : |(pyRound q : Rat) - q| ≤ 1/2 := by
  have h0 : 0 ≤ Int.fract q := Int.fract_nonneg q
  have h1 : Int.fract q < 1 := Int.fract_lt_one q
  have hq : (⌊q⌋ : Rat) + Int.fract q = q := Int.floor_add_fract q
  unfold pyRound
  split_ifs with hlt hgt heven
  · rw [abs_le]
    constructor <;> linarith
  · rw [abs_le]
    constructor <;> push_cast <;> linarith
  · have h2 : Int.fract q = 1/2 := le_antisymm (not_lt.mp hgt) (not_lt.mp hlt)
    rw [abs_le]
    constructor <;> linarith
  · have h2 : Int.fract q = 1/2 := le_antisymm (not_lt.mp hgt) (not_lt.mp hlt)
    rw [abs_le]
    constructor <;> push_cast <;> linarith

/-! Evaluations of the sample runs, used by the witnesses. -/

/-- Real shrink run on a healthy SECONDARY: resize then compact. -/
theorem sample_eval :
    reconcile sampleClient sampleParams =
      (Except.ok sampleRes,
       { sampleClient with maxSize := 8000 * 1024 * 1024 },
       [Op.readSize, Op.readRole, Op.resize, Op.compact]) := by
  norm_num [reconcile, sampleClient, sampleParams, sampleRes, get_olplog_size,
    set_oplog_size, compact_oplog]

/-- Real shrink run whose resize command is rejected. -/
theorem resizeFail_eval :
    reconcile clientResizeFail sampleParams =
      (Except.error ("Unable to set oplog size: " ++ "not authorized"),
       clientResizeFail, [Op.readSize, Op.readRole, Op.resize]) := by
  norm_num [reconcile, clientResizeFail, sampleParams, get_olplog_size]

/-- Real run with a non-positive desired size: the remote resize is
reached and its rejection is what terminates the run. -/
theorem badSize_eval :
    reconcile clientBadSize paramsNonPositive =
      (Except.error ("Unable to set oplog size: " ++ "BadValue"),
       clientBadSize, [Op.readSize, Op.readRole, Op.resize]) := by
  norm_num [reconcile, clientBadSize, paramsNonPositive, get_olplog_size]

end MongodbOplog

namespace MongodbOplog

/-- Claim C1: in a run of the reconciliation, the compact operation is
invoked iff the member role is SECONDARY, the compact flag is set, the
current oplog size strictly exceeds the desired size, and the resize
call was invoked and succeeded; moreover, outside check mode, a
successful run reports compacted = true exactly when compact was
invoked (and hence succeeded), and reports compacted = false when the
guard failed. -/
theorem compact_guard (c : Client) (p : Params) :
    (Op.compact ∈ (reconcile c p).2.2 ↔
      (c.memberState = "SECONDARY" ∧ p.compact = true ∧
        (p.oplog_size_mb : Rat) < get_olplog_size c ∧
        Op.resize ∈ (reconcile c p).2.2 ∧ c.resizeErr = none)) ∧
    (p.check_mode = false → ∀ r, (reconcile c p).1 = Except.ok r →
      (r.compacted = some true ↔ Op.compact ∈ (reconcile c p).2.2)) := by
  rcases hce : c.collStatsErr with _ | e
  · by_cases heq : (p.oplog_size_mb : Rat) = get_olplog_size c
    · constructor
      · simp [reconcile, hce, heq]
      · intro hck r hr
        simp [reconcile, hce, heq] at hr
        simp [reconcile, hce, heq, ← hr]
    · rcases hme : c.memberStateErr with _ | e
      · by_cases hck : p.check_mode = true
        · constructor
          · simp [reconcile, hce, heq, hme, hck]
          · intro hck' r hr
            simp [hck'] at hck
        · rcases hre : c.resizeErr with _ | e
          · by_cases hg : (c.memberState == "SECONDARY" && p.compact
                && decide ((p.oplog_size_mb : Rat) < get_olplog_size c)) = true
            · have hg' := hg
              simp only [Bool.and_eq_true, beq_iff_eq, decide_eq_true_eq] at hg'
              rcases hce2 : c.compactErr with _ | e
              · constructor
                · simp [reconcile, hce, heq, hme, hck, hre, hg, hce2, set_oplog_size, hg']
                · intro _ r hr
                  simp [reconcile, hce, heq, hme, hck, hre, hg, hce2, set_oplog_size] at hr
                  simp [reconcile, hce, heq, hme, hck, hre, hg, hce2, set_oplog_size, ← hr]
              · constructor
                · simp [reconcile, hce, heq, hme, hck, hre, hg, hce2, set_oplog_size, hg']
                · intro _ r hr
                  simp [reconcile, hce, heq, hme, hck, hre, hg, hce2, set_oplog_size] at hr
            · have hg' := hg
              simp only [Bool.and_eq_true, beq_iff_eq, decide_eq_true_eq, not_and] at hg'
              constructor
              · simp [reconcile, hce, heq, hme, hck, hre, hg, set_oplog_size]
                intro h1 h2
                exact not_lt.mp (hg' ⟨h1, h2⟩)
              · intro _ r hr
                simp [reconcile, hce, heq, hme, hck, hre, hg, set_oplog_size] at hr
                simp [reconcile, hce, heq, hme, hck, hre, hg, set_oplog_size, ← hr]
          · constructor
            · simp [reconcile, hce, heq, hme, hck, hre]
            · intro _ r hr
              simp [reconcile, hce, heq, hme, hck, hre] at hr
      · constructor
        · simp [reconcile, hce, heq, hme]
        · intro _ r hr
          simp [reconcile, hce, heq, hme] at hr
  · constructor
    · simp [reconcile, hce]
    · intro _ r hr
      simp [reconcile, hce] at hr

/-- Claim C1 witness: on the healthy SECONDARY shrinking from 16000 MB to
8000 MB with compact requested, the guard holds and compact is invoked. -/
theorem compact_guard_witness :
    Op.compact ∈ (reconcile sampleClient sampleParams).2.2 :=
  (compact_guard sampleClient sampleParams).1.mpr
    ⟨rfl, rfl, by norm_num [get_olplog_size, sampleClient, sampleParams],
     by rw [sample_eval]; simp, rfl⟩

/-- Claim C2: when the current oplog size equals the desired size exactly,
the run reports changed = false, compacted = false and the message
"oplog_size_mb is already N mb", invokes no operation other than the
initial size read (in particular neither resize nor compact), and
leaves the remote state untouched. -/
theorem noop_when_equal (c : Client) (p : Params)
    (hread : c.collStatsErr = none)
    (heq : (p.oplog_size_mb : Rat) = get_olplog_size c) :
    (reconcile c p).1 = Except.ok { changed := false, compacted := some false,
                                    msg := some ("oplog_size_mb is already "
                                      ++ toString p.oplog_size_mb ++ " mb") } ∧
    (reconcile c p).2.2 = [Op.readSize] ∧ (reconcile c p).2.1 = c := by
  refine ⟨?_, ?_, ?_⟩ <;> simp [reconcile, hread, heq]

/-- Claim C2 witness: a member already at 8000 MB, desired size 8000 MB. -/
theorem noop_when_equal_witness :
    (reconcile clientEq paramsEq).1 =
      Except.ok { changed := false, compacted := some false,
                  msg := some ("oplog_size_mb is already "
                    ++ toString paramsEq.oplog_size_mb ++ " mb") } ∧
    (reconcile clientEq paramsEq).2.2 = [Op.readSize] ∧
    (reconcile clientEq paramsEq).2.1 = clientEq :=
  noop_when_equal clientEq paramsEq rfl
    (by norm_num [get_olplog_size, clientEq, paramsEq])

/-- Claim C3 (divergence witness): in a no-auth deployment, where the
caller follows the module documentation and supplies no credentials and
no .mongocnf file exists, main() never reads the current oplog size
(no remote oplog operation at all is invoked) and exits with
changed = false, even though nothing is wrong with the member; the
read-compare-act control flow is skipped entirely. -/
theorem no_creds_skips_reconciliation :
    MongodbOplog.main mainParamsNoCreds envNoCreds sampleClient =
      (Except.ok { changed := false, compacted := none, msg := none }, sampleClient, []) :=
  rfl

end MongodbOplog


namespace MongodbOplog

/-- Claim C4: in check mode neither resize nor compact is ever invoked,
whatever the state of the member; and when the reads succeed and the
sizes differ, the run reports changed = true with compacted equal to
(memberState == SECONDARY and compact) and the simulated resize
message. -/
theorem check_mode_frame (c : Client) (p : Params) (hck : p.check_mode = true) :
    (Op.resize ∉ (reconcile c p).2.2 ∧ Op.compact ∉ (reconcile c p).2.2) ∧
    (c.collStatsErr = none → c.memberStateErr = none →
      (p.oplog_size_mb : Rat) ≠ get_olplog_size c →
      (reconcile c p).1 =
        Except.ok { changed := true,
                    compacted := some (c.memberState == "SECONDARY" && p.compact),
                    msg := some (resizedMsgStr (pyRound (get_olplog_size c))
                      p.oplog_size_mb) } ∧
      (reconcile c p).2.1 = c) := by
  constructor
  · rcases hce : c.collStatsErr with _ | e
    · by_cases heq : (p.oplog_size_mb : Rat) = get_olplog_size c
      · simp [reconcile, hce, heq]
      · rcases hme : c.memberStateErr with _ | e
        · simp [reconcile, hce, heq, hme, hck]
        · simp [reconcile, hce, heq, hme]
    · simp [reconcile, hce]
  · intro h1 h2 h3
    constructor <;> simp [reconcile, h1, h2, h3, hck]

/-- Claim C4 witness: check-mode shrink on the healthy SECONDARY reports
the simulated outcome and invokes no write. -/
theorem check_mode_frame_witness :
    Op.resize ∉ (reconcile sampleClient checkParams).2.2 ∧
    (reconcile sampleClient checkParams).1 =
      Except.ok { changed := true,
                  compacted := some (sampleClient.memberState == "SECONDARY"
                    && checkParams.compact),
                  msg := some (resizedMsgStr (pyRound (get_olplog_size sampleClient))
                    checkParams.oplog_size_mb) } :=
  ⟨(check_mode_frame sampleClient checkParams rfl).1.1,
   ((check_mode_frame sampleClient checkParams rfl).2 rfl rfl
     (by norm_num [get_olplog_size, sampleClient, checkParams])).1⟩

/-- Claim C5: a failing resize terminates the run with the single message
"Unable to set oplog size: cause" and compact is never attempted after
it; a compact failure can only happen after resize was invoked and
succeeded, and terminates the run with "Error compacting member oplog:
cause"; every run produces exactly one outcome, either a success result
or a failure, and a success result is never missing its compacted or
msg field. -/
theorem failure_atomicity (c : Client) (p : Params) :
    (∀ e, c.resizeErr = some e → Op.resize ∈ (reconcile c p).2.2 →
      (reconcile c p).1 = Except.error ("Unable to set oplog size: " ++ e) ∧
      Op.compact ∉ (reconcile c p).2.2) ∧
    (∀ e, c.compactErr = some e → Op.compact ∈ (reconcile c p).2.2 →
      (reconcile c p).1 = Except.error ("Error compacting member oplog: " ++ e) ∧
      Op.resize ∈ (reconcile c p).2.2 ∧ c.resizeErr = none) ∧
    ((∃ r, (reconcile c p).1 = Except.ok r) ↔ ¬ ∃ e, (reconcile c p).1 = Except.error e) ∧
    (∀ r, (reconcile c p).1 = Except.ok r → r.compacted ≠ none ∧ r.msg ≠ none) := by
  rcases hce : c.collStatsErr with _ | e
  · by_cases heq : (p.oplog_size_mb : Rat) = get_olplog_size c
    · refine ⟨?_, ?_, ?_, ?_⟩ <;> simp [reconcile, hce, heq]
    · rcases hme : c.memberStateErr with _ | e
      · by_cases hck : p.check_mode = true
        · refine ⟨?_, ?_, ?_, ?_⟩ <;> simp [reconcile, hce, heq, hme, hck]
        · rcases hre : c.resizeErr with _ | e
          · by_cases hg : (c.memberState == "SECONDARY" && p.compact
                && decide ((p.oplog_size_mb : Rat) < get_olplog_size c)) = true
            · rcases hce2 : c.compactErr with _ | e
              · refine ⟨?_, ?_, ?_, ?_⟩ <;>
                  simp [reconcile, hce, heq, hme, hck, hre, hg, hce2, set_oplog_size]
              · refine ⟨?_, ?_, ?_, ?_⟩ <;>
                  simp [reconcile, hce, heq, hme, hck, hre, hg, hce2, set_oplog_size]
            · refine ⟨?_, ?_, ?_, ?_⟩ <;>
                simp [reconcile, hce, heq, hme, hck, hre, hg, set_oplog_size]
          · refine ⟨?_, ?_, ?_, ?_⟩ <;> simp [reconcile, hce, heq, hme, hck, hre]
      · refine ⟨?_, ?_, ?_, ?_⟩ <;> simp [reconcile, hce, heq, hme]
  · refine ⟨?_, ?_, ?_, ?_⟩ <;> simp [reconcile, hce]

/-- Claim C5 witness: a rejected resize on the shrinking SECONDARY run
fails with the resize message and compact is not attempted. -/
theorem failure_atomicity_witness :
    (reconcile clientResizeFail sampleParams).1 =
      Except.error ("Unable to set oplog size: " ++ "not authorized") ∧
    Op.compact ∉ (reconcile clientResizeFail sampleParams).2.2 :=
  (failure_atomicity clientResizeFail sampleParams).1 "not authorized" rfl
    (by rw [resizeFail_eval]; simp)

/-- Claim C6: for a SECONDARY with compact requested and a growing resize
(desired size strictly above the current size), the check-mode run
predicts compacted = true while the real run over the same state
performs no compaction and reports compacted = false: the check-mode
guard omits the currentSize greater than desiredSize conjunct. -/
theorem check_mode_overreports_compaction (c : Client) (p : Params)
    (hread : c.collStatsErr = none) (hrole : c.memberStateErr = none)
    (hresize : c.resizeErr = none)
    (hsec : c.memberState = "SECONDARY") (hcmp : p.compact = true)
    (hgrow : get_olplog_size c < (p.oplog_size_mb : Rat)) :
    (reconcile c { p with check_mode := true }).1 =
      Except.ok { changed := true, compacted := some true,
                  msg := some (resizedMsgStr (pyRound (get_olplog_size c))
                    p.oplog_size_mb) } ∧
    (reconcile c { p with check_mode := false }).1 =
      Except.ok { changed := true, compacted := some false,
                  msg := some (resizedMsgStr (pyRound (get_olplog_size c))
                    p.oplog_size_mb) } ∧
    Op.compact ∉ (reconcile c { p with check_mode := false }).2.2 := by
  have hne : (p.oplog_size_mb : Rat) ≠ get_olplog_size c := hgrow.ne'
  have hnlt : ¬ (p.oplog_size_mb : Rat) < get_olplog_size c := hgrow.asymm
  refine ⟨?_, ?_, ?_⟩ <;>
    simp [reconcile, hread, hrole, hresize, hne, hnlt, hsec, hcmp, set_oplog_size]

/-- Claim C6 witness: SECONDARY at 8000 MB, desired 16000 MB with compact
requested; check mode predicts compaction, the real run does not
compact. -/
theorem check_mode_overreports_compaction_witness :
    (reconcile clientGrow { growParams with check_mode := true }).1 =
      Except.ok { changed := true, compacted := some true,
                  msg := some (resizedMsgStr (pyRound (get_olplog_size clientGrow))
                    growParams.oplog_size_mb) } ∧
    (reconcile clientGrow { growParams with check_mode := false }).1 =
      Except.ok { changed := true, compacted := some false,
                  msg := some (resizedMsgStr (pyRound (get_olplog_size clientGrow))
                    growParams.oplog_size_mb) } ∧
    Op.compact ∉ (reconcile clientGrow { growParams with check_mode := false }).2.2 :=
  check_mode_overreports_compaction clientGrow growParams rfl rfl rfl rfl rfl
    (by norm_num [get_olplog_size, clientGrow, growParams])

end MongodbOplog

namespace MongodbOplog

/-- Helper: whenever the size read succeeds and the sizes differ, the
member state is queried (so more than the initial read is on the wire). -/
theorem readRole_mem_of_ne (c : Client) (p : Params)
    (hread : c.collStatsErr = none)
    (hne : (p.oplog_size_mb : Rat) ≠ get_olplog_size c) :
    Op.readRole ∈ (reconcile c p).2.2 := by
  rcases hme : c.memberStateErr with _ | e
  · by_cases hck : p.check_mode = true
    · simp [reconcile, hread, hne, hme, hck]
    · rcases hre : c.resizeErr with _ | e
      · by_cases hg : (c.memberState == "SECONDARY" && p.compact
            && decide ((p.oplog_size_mb : Rat) < get_olplog_size c)) = true
        · rcases hce2 : c.compactErr with _ | e
          · simp [reconcile, hread, hne, hme, hck, hre, hg, hce2, set_oplog_size]
          · simp [reconcile, hread, hne, hme, hck, hre, hg, hce2, set_oplog_size]
        · simp [reconcile, hread, hne, hme, hck, hre, hg, set_oplog_size]
      · simp [reconcile, hread, hne, hme, hck, hre]
  · simp [reconcile, hread, hne, hme]

/-- Claim C7: the current size is the byte count divided exactly by 1024
twice, which can be fractional (witnessed by a 1-byte maxSize), and the
no-op branch (only the initial read on the wire, successful exit) is
taken iff the stored byte count is exactly oplog_size_mb * 1024 * 1024:
the comparison is exact, with no tolerance. -/
theorem noop_iff_exact_bytes :
    (∀ n : Int, get_olplog_size clientFrac ≠ (n : Rat)) ∧
    (∀ (c : Client) (p : Params), c.collStatsErr = none →
      (((reconcile c p).2.2 = [Op.readSize] ∧ (∃ r, (reconcile c p).1 = Except.ok r)) ↔
        c.maxSize = p.oplog_size_mb * 1024 * 1024)) := by
  constructor
  · intro n h
    have h2 : clientFrac.maxSize = n * 1024 * 1024 := (oplog_size_eq_iff clientFrac n).mp h.symm
    have h3 : (1 : Int) = n * 1024 * 1024 := h2
    omega
  · intro c p hread
    constructor
    · rintro ⟨hops, r, hr⟩
      by_cases heq : (p.oplog_size_mb : Rat) = get_olplog_size c
      · exact (oplog_size_eq_iff c p.oplog_size_mb).mp heq
      · have hmem := readRole_mem_of_ne c p hread heq
        rw [hops] at hmem
        simp at hmem
    · intro hbytes
      have heq : (p.oplog_size_mb : Rat) = get_olplog_size c :=
        (oplog_size_eq_iff c p.oplog_size_mb).mpr hbytes
      refine ⟨by simp [reconcile, hread, heq],
        ⟨{ changed := false, compacted := some false,
           msg := some ("oplog_size_mb is already " ++ toString p.oplog_size_mb ++ " mb") },
         by simp [reconcile, hread, heq]⟩⟩

/-- Claim C7 witness: 8388608000 bytes is exactly 8000 * 1024 * 1024, so
for desired size 8000 the no-op branch is taken. -/
theorem noop_iff_exact_bytes_witness :
    ((reconcile clientEq paramsEq).2.2 = [Op.readSize] ∧
      (∃ r, (reconcile clientEq paramsEq).1 = Except.ok r)) ↔
      clientEq.maxSize = paramsEq.oplog_size_mb * 1024 * 1024 :=
  noop_iff_exact_bytes.2 clientEq paramsEq rfl

/-- Claim C8 counterexample: with the malformed desired size 0 MB on a
100 MB member, the run does not fail with a validation error before any
remote operation; it reads the size, reads the role, and issues the
remote resize command, whose remote rejection is what terminates the
run. -/
theorem nonpositive_size_cex :
    paramsNonPositive.oplog_size_mb ≤ 0 ∧
    Op.resize ∈ (reconcile clientBadSize paramsNonPositive).2.2 ∧
    (reconcile clientBadSize paramsNonPositive).1 =
      Except.error ("Unable to set oplog size: " ++ "BadValue") := by
  refine ⟨by norm_num [paramsNonPositive], ?_, ?_⟩ <;> rw [badSize_eval] <;> simp

/-- Claim C8 amended: the module performs no positivity validation of
oplog_size_mb; a non-positive desired size flows through the normal
read-compare-act path and reaches the remote resize command whenever
the reads succeed and the sizes differ. -/
theorem nonpositive_size_reaches_resize (c : Client) (p : Params)
    (hpos : p.oplog_size_mb ≤ 0) (hck : p.check_mode = false)
    (hread : c.collStatsErr = none) (hrole : c.memberStateErr = none)
    (hne : (p.oplog_size_mb : Rat) ≠ get_olplog_size c) :
    Op.resize ∈ (reconcile c p).2.2 := by
  rcases hre : c.resizeErr with _ | e
  · by_cases hg : (c.memberState == "SECONDARY" && p.compact
        && decide ((p.oplog_size_mb : Rat) < get_olplog_size c)) = true
    · rcases hce2 : c.compactErr with _ | e
      · simp [reconcile, hread, hne, hrole, hck, hre, hg, hce2, set_oplog_size]
      · simp [reconcile, hread, hne, hrole, hck, hre, hg, hce2, set_oplog_size]
    · simp [reconcile, hread, hne, hrole, hck, hre, hg, set_oplog_size]
  · simp [reconcile, hread, hne, hrole, hck, hre]

/-- Claim C8 amended witness: desired size 0 on the 100 MB member issues
the remote resize command. -/
theorem nonpositive_size_reaches_resize_witness :
    Op.resize ∈ (reconcile clientBadSize paramsNonPositive).2.2 :=
  nonpositive_size_reaches_resize clientBadSize paramsNonPositive
    (by norm_num [paramsNonPositive]) rfl rfl rfl
    (by norm_num [get_olplog_size, clientBadSize, paramsNonPositive])

/-- Claim C9: every successful run that reports a change (a performed or
simulated resize) carries the message
"oplog has been resized from OLD.0 mb to NEW mb", where NEW is the
desired size itself and OLD is an integer within half a megabyte of the
current size, i.e. the current size rounded to the nearest whole MB. -/
theorem resize_message_rounded (c : Client) (p : Params) (r : ModuleResult)
    (hr : (reconcile c p).1 = Except.ok r) (hch : r.changed = true) :
    ∃ old : Int, r.msg = some (resizedMsgStr old p.oplog_size_mb) ∧
      |(old : Rat) - get_olplog_size c| ≤ 1/2 := by
  rcases hce : c.collStatsErr with _ | e
  · by_cases heq : (p.oplog_size_mb : Rat) = get_olplog_size c
    · simp [reconcile, hce, heq] at hr
      rw [← hr] at hch
      simp at hch
    · rcases hme : c.memberStateErr with _ | e
      · by_cases hck : p.check_mode = true
        · simp [reconcile, hce, heq, hme, hck] at hr
          exact ⟨pyRound (get_olplog_size c), by simp [← hr], abs_pyRound_sub_le _⟩
        · rcases hre : c.resizeErr with _ | e
          · by_cases hg : (c.memberState == "SECONDARY" && p.compact
                && decide ((p.oplog_size_mb : Rat) < get_olplog_size c)) = true
            · rcases hce2 : c.compactErr with _ | e
              · simp [reconcile, hce, heq, hme, hck, hre, hg, hce2, set_oplog_size] at hr
                exact ⟨pyRound (get_olplog_size c), by simp [← hr], abs_pyRound_sub_le _⟩
              · simp [reconcile, hce, heq, hme, hck, hre, hg, hce2, set_oplog_size] at hr
            · simp [reconcile, hce, heq, hme, hck, hre, hg, set_oplog_size] at hr
              exact ⟨pyRound (get_olplog_size c), by simp [← hr], abs_pyRound_sub_le _⟩
          · simp [reconcile, hce, heq, hme, hck, hre] at hr
      · simp [reconcile, hce, heq, hme] at hr
  · simp [reconcile, hce] at hr

/-- Claim C9 witness: the real shrink run reports the message built from
the rounded current size 16000 and the desired size 8000. -/
theorem resize_message_rounded_witness :
    ∃ old : Int, sampleRes.msg = some (resizedMsgStr old sampleParams.oplog_size_mb) ∧
      |(old : Rat) - get_olplog_size sampleClient| ≤ 1/2 :=
  resize_message_rounded sampleClient sampleParams sampleRes
    (by rw [sample_eval]) rfl

/-- Claim C10: idempotence. A real run against a member whose remote
calls succeed and whose current size differs from the desired size
reports changed = true, and running the reconciliation again with the
same desired configuration against the resulting member state reports
changed = false. -/
theorem reconcile_idempotent (c : Client) (p : Params)
    (hread : c.collStatsErr = none) (hrole : c.memberStateErr = none)
    (hresize : c.resizeErr = none) (hcomp : c.compactErr = none)
    (hck : p.check_mode = false)
    (hne : (p.oplog_size_mb : Rat) ≠ get_olplog_size c) :
    (∃ r₁, (reconcile c p).1 = Except.ok r₁ ∧ r₁.changed = true) ∧
    (∃ r₂, (reconcile (reconcile c p).2.1 p).1 = Except.ok r₂ ∧ r₂.changed = false) := by
  have hstate : (reconcile c p).2.1 = set_oplog_size c p.oplog_size_mb := by
    by_cases hg : (c.memberState == "SECONDARY" && p.compact
        && decide ((p.oplog_size_mb : Rat) < get_olplog_size c)) = true
    · simp [reconcile, hread, hne, hrole, hck, hresize, hg, hcomp, set_oplog_size, compact_oplog]
    · simp [reconcile, hread, hne, hrole, hck, hresize, hg, set_oplog_size]
  constructor
  · by_cases hg : (c.memberState == "SECONDARY" && p.compact
        && decide ((p.oplog_size_mb : Rat) < get_olplog_size c)) = true
    · exact ⟨{ changed := true, compacted := some true,
               msg := some (resizedMsgStr (pyRound (get_olplog_size c)) p.oplog_size_mb) },
        by simp [reconcile, hread, hne, hrole, hck, hresize, hg, hcomp, set_oplog_size], rfl⟩
    · exact ⟨{ changed := true, compacted := some false,
               msg := some (resizedMsgStr (pyRound (get_olplog_size c)) p.oplog_size_mb) },
        by simp [reconcile, hread, hne, hrole, hck, hresize, hg, set_oplog_size], rfl⟩
  · rw [hstate]
    have hread2 : (set_oplog_size c p.oplog_size_mb).collStatsErr = none := hread
    have heq2 : (p.oplog_size_mb : Rat) = get_olplog_size (set_oplog_size c p.oplog_size_mb) :=
      (get_olplog_size_set c p.oplog_size_mb).symm
    exact ⟨{ changed := false, compacted := some false,
             msg := some ("oplog_size_mb is already " ++ toString p.oplog_size_mb ++ " mb") },
      by simp [reconcile, hread2, heq2], rfl⟩

/-- Claim C10 witness: shrinking the 16000 MB SECONDARY to 8000 MB reports
changed = true, and a second identical run reports changed = false. -/
theorem reconcile_idempotent_witness :
    (∃ r₁, (reconcile sampleClient sampleParams).1 = Except.ok r₁ ∧ r₁.changed = true) ∧
    (∃ r₂, (reconcile (reconcile sampleClient sampleParams).2.1 sampleParams).1 =
      Except.ok r₂ ∧ r₂.changed = false) :=
  reconcile_idempotent sampleClient sampleParams rfl rfl rfl rfl rfl
    (by norm_num [get_olplog_size, sampleClient, sampleParams])

end MongodbOplog
